import Mathlib

/-!
# StatementSync — a shallow embedding of `src/StatementSync.py`

This file embeds the core pipeline of `StatementSync.py` in Lean 4:

* `read_pdf` (lines 27-48): PDF fetch collapsed to an `Except` outcome,
  error path produces the `"Error reading PDF: "`-prefixed message;
* `analyze_pdf_content` (lines 50-115): the bounded completion-retry loop,
  each attempt's external completion call + CSV parse modelled as an oracle
  `Nat → Option (List TxRow)` (`none` = the attempt raised);
* `upload_transactions_to_notion` (lines 326-404): the per-row validation,
  date/price coercion and partial-failure counting, with the external
  `dateutil` parser and the page-create call as oracles;
* `get_pdf_entries` (lines 260-304): the unprocessed-attachment scan;
* `check_existing_database` / `create_new_database` (lines 168-258) and the
  resolution step of `process_pdfs` (lines 428-434), over an explicit
  service state;
* `ensure_database_properties` (lines 117-166): additive schema healing;
* the per-PDF body of `process_pdfs` (lines 439-493) as `processPdfEntry`.

Machine reals do not appear: prices are parsed into `ℚ` by a model of
Python's `float()` on finite decimal literals.
-/

/-- Python `str.strip()` on the character list: drop whitespace
from both ends. -/
def stripChars (l : List Char) : List Char :=
  ((l.dropWhile Char.isWhitespace).reverse.dropWhile Char.isWhitespace).reverse

/-- Python `str.strip()` (no argument form) on a `String`. -/
def pyStrip (s : String) : String :=
  String.mk (stripChars s.data)

/-- Python `s.replace(c, "")`: remove every occurrence of the character `c`.
`StatementSync.py` line 365 uses `replace` with an empty replacement, which
deletes all occurrences. -/
def removeChar (c : Char) (s : String) : String :=
  String.mk (s.data.filter (fun d => d ≠ c))

/-- Python `s.startswith(pre)` as a prefix test on the character data. -/
def pyStartsWith (s pre : String) : Bool :=
  pre.data.isPrefixOf s.data

/-- Numeric value of a list of decimal digit characters. -/
def natOfDigits (l : List Char) : Nat :=
  l.foldl (fun n c => 10 * n + (c.toNat - '0'.toNat)) 0

/-- A parsed finite decimal literal, before valuation: sign, integer part,
fractional digits (value and count), and a decimal exponent. -/
structure DecLit where
  neg : Bool
  intPart : Nat
  fracPart : Nat
  fracLen : Nat
  expNeg : Bool
  expVal : Nat
deriving DecidableEq, Repr

/-- The rational value of a parsed decimal literal. -/
def floatVal (l : DecLit) : ℚ :=
  let mant : ℚ := (l.intPart : ℚ) + (l.fracPart : ℚ) / (10 : ℚ) ^ l.fracLen
  let signed : ℚ := if l.neg then -mant else mant
  if l.expNeg then signed / (10 : ℚ) ^ l.expVal else signed * (10 : ℚ) ^ l.expVal

/-- The syntactic part of Python's `float()` on finite decimal literals
(optional surrounding whitespace, optional sign, digits with an optional
fractional part, optional decimal exponent).  `"inf"`/`"nan"` and
digit-group underscores are not modelled: no input considered in this
development contains them. -/
def parseDecimal? (s : String) : Option DecLit :=
  let cs0 := stripChars s.data
  let signAndRest : Bool × List Char :=
    match cs0 with
    | '+' :: rest => (false, rest)
    | '-' :: rest => (true, rest)
    | _ => (false, cs0)
  let cs1 := signAndRest.2
  let intDs := cs1.takeWhile Char.isDigit
  let cs2 := cs1.dropWhile Char.isDigit
  let fracAndRest : List Char × List Char :=
    match cs2 with
    | '.' :: rest => (rest.takeWhile Char.isDigit, rest.dropWhile Char.isDigit)
    | _ => ([], cs2)
  let fracDs := fracAndRest.1
  let cs3 := fracAndRest.2
  if intDs.isEmpty && fracDs.isEmpty then none
  else
    match cs3 with
    | [] =>
      some ⟨signAndRest.1, natOfDigits intDs, natOfDigits fracDs, fracDs.length,
        false, 0⟩
    | c :: rest =>
      if c = 'e' || c = 'E' then
        let expSignRest : Bool × List Char :=
          match rest with
          | '+' :: r => (false, r)
          | '-' :: r => (true, r)
          | _ => (false, rest)
        let eDs := expSignRest.2.takeWhile Char.isDigit
        let cs4 := expSignRest.2.dropWhile Char.isDigit
        if eDs.isEmpty || !cs4.isEmpty then none
        else
          some ⟨signAndRest.1, natOfDigits intDs, natOfDigits fracDs, fracDs.length,
            expSignRest.1, natOfDigits eDs⟩
      else none

/-- Python's built-in `float()` on finite decimal literals, as an exact
rational. -/
def parseFloat? (s : String) : Option ℚ :=
  (parseDecimal? s).map floatVal

/-! ## TransactionUploader — `upload_transactions_to_notion` (lines 326-404) -/

/-- One CSV row as handed to the uploader: a dict with the four expected
keys.  A key that is missing (or whose `csv.DictReader` value is `None`)
is represented by `""`; both are falsy in the Python validation checks. -/
structure TxRow where
  transactionDate : String
  productName : String
  price : String
  category : String
deriving DecidableEq, Repr

/-- The price sanitisation of line 365:
`price_str.replace(',', '').replace('$', '')` — every comma and every
dollar sign is removed, wherever it occurs. -/
def sanitizePrice (s : String) : String :=
  removeChar '$' (removeChar ',' s)

/-- Price coercion of lines 364-365: sanitise, then Python `float()`. -/
def parsePrice? (s : String) : Option ℚ :=
  parseFloat? (sanitizePrice s)

/-- Syntactic part of the price coercion (for decidable evaluation). -/
def parsePriceLit? (s : String) : Option DecLit :=
  parseDecimal? (sanitizePrice s)

/-- Modelled from the spec: "Price parses as a decimal number after
stripping thousands separators and a leading currency symbol" — commas
(the thousands separators) are removed and one leading `$` is stripped,
then the result is parsed as a decimal number. -/
def specSanitizePrice (s : String) : String :=
  let noLead := if pyStartsWith s "$" then String.mk (s.data.drop 1) else s
  removeChar ',' noLead

/-- Modelled from the spec: the price coercion as §4.5 step 3 describes it. -/
def specParsePrice? (s : String) : Option ℚ :=
  parseFloat? (specSanitizePrice s)

/-- A destination-database row created by `notion.pages.create`
(lines 372-396): the four populated fields. -/
structure CreatedPage where
  transactionDate : String
  productName : String
  price : ℚ
  category : String
deriving DecidableEq, Repr

/-- Per-row validation and coercion, lines 339-369.  The external
`dateutil.parser.parse(...).strftime("%Y-%m-%d")` call is the oracle
`dateParse` (`none` models a raised parse error, which the code catches
and turns into a skip).  `none` here means the row is skipped;
`some page` is the page payload passed to `notion.pages.create`. -/
def validateRow (dateParse : String → Option String) (row : TxRow) :
    Option CreatedPage :=
  let date_str := row.transactionDate
  if date_str = "" then none
  else
    match dateParse date_str with
    | none => none
    | some formatted_date =>
      let product_name := pyStrip row.productName
      let price_str := pyStrip row.price
      let category := pyStrip row.category
      if product_name = "" || price_str = "" || category = "" then none
      else
        match parsePrice? price_str with
        | none => none
        | some price => some ⟨formatted_date, product_name, price, category⟩

/-- The loop of lines 337-401.  `createOk i` tells whether the
`notion.pages.create` call for the row at position `i` succeeds (`false`
models a raised API error, caught at line 399 and counted as a skip).
Returns `(uploaded_count, skipped_count, created pages)`. -/
def uploadLoop (dateParse : String → Option String) (createOk : Nat → Bool) :
    List TxRow → Nat → Nat × Nat × List CreatedPage
  | [], _ => (0, 0, [])
  | row :: rest, i =>
    let r := uploadLoop dateParse createOk rest (i + 1)
    match validateRow dateParse row with
    | none => (r.1, r.2.1 + 1, r.2.2)
    | some page =>
      if createOk i then (r.1 + 1, r.2.1, page :: r.2.2)
      else (r.1, r.2.1 + 1, r.2.2)

/-- What a call to the uploader leaves behind: the two counters of lines
334-335, the pages actually written, and the Python return value. -/
structure UploadOutcome where
  uploaded_count : Nat
  skipped_count : Nat
  created : List CreatedPage
  retVal : Option (Nat × Nat)
deriving DecidableEq, Repr

/-- `upload_transactions_to_notion(data, database_id)`, lines 326-404.
The function body ends at the two `print` calls with no `return`
statement, so the Python function returns `None`: `retVal := none`
records the value the caller receives. -/
def upload_transactions_to_notion (dateParse : String → Option String)
    (createOk : Nat → Bool) (data : List TxRow) : UploadOutcome :=
  let r := uploadLoop dateParse createOk data 0
  ⟨r.1, r.2.1, r.2.2, none⟩

/-! ## TransactionExtractor — `analyze_pdf_content` (lines 50-115)

Each iteration of the `for attempt in range(1, retries + 1)` loop performs
one completion request and processes its response (fenced-block slicing,
CSV parse, header validation) inside a `try`.  The whole attempt body is
external and non-deterministic (it calls the completion service), so an
attempt is modelled by its outcome: `attempts i = some data` when the
attempt with zero-based index `i` reaches `return data`, and
`attempts i = none` when it raises (network error, CSV parse error or the
header-mismatch `ValueError` of line 105). -/

/-- First successful attempt among a list of attempt outcomes, together
with the number of attempts consumed up to and including it. -/
def firstSuccess : List (Option (List TxRow)) → Option (List TxRow × Nat)
  | [] => none
  | none :: rest => (firstSuccess rest).map (fun r => (r.1, r.2 + 1))
  | some d :: _ => some (d, 1)

/-- The outcomes of the attempts the loop may run, in order. -/
def attemptList (attempts : Nat → Option (List TxRow)) (retries : Nat) :
    List (Option (List TxRow)) :=
  (List.range retries).map attempts

/-- `analyze_pdf_content(pdf_content, retries)`, lines 50-115: return the
data of the first attempt that succeeds; after exhausting all attempts,
fall through to `return []` (line 115). -/
def analyze_pdf_content (attempts : Nat → Option (List TxRow))
    (retries : Nat) : List TxRow :=
  match firstSuccess (attemptList attempts retries) with
  | some r => r.1
  | none => []

/-- Number of completion requests `analyze_pdf_content` issues: one per
loop iteration actually run. -/
def analyzeRequests (attempts : Nat → Option (List TxRow))
    (retries : Nat) : Nat :=
  match firstSuccess (attemptList attempts retries) with
  | some r => r.2
  | none => retries

/-! ## PdfTextExtractor — `read_pdf` (lines 27-48) -/

/-- `read_pdf(pdf_url)`, lines 27-48.  The `requests.get` /
`raise_for_status` / PyMuPDF page-text concatenation inside the `try` is
external; `fetch` is its outcome: `.ok text` when the body reaches
`return text`, `.error e` when any step raises with message `e`.  The
`except` branch returns the error string of line 48. -/
def read_pdf (fetch : Except String String) : String :=
  match fetch with
  | .ok text => text
  | .error e => "Error reading PDF: " ++ e

/-! ## PipelineOrchestrator — per-PDF body of `process_pdfs`
(lines 439-493) -/

/-- The cleaning pass of lines 462-480: per item, a fresh dict is built
from the four required keys (missing keys default to `""`), and the item
is kept only when all four values are truthy (non-empty). -/
def cleanedRows (extracted : List TxRow) : List TxRow :=
  extracted.filter (fun item =>
    item.transactionDate ≠ "" && item.productName ≠ "" &&
      item.price ≠ "" && item.category ≠ "")

/-- What processing one PDF entry leaves behind: the uploader call's
outcome when one was made, and whether `mark_pdf_as_processed` was
invoked for the source page. -/
structure PdfOutcome where
  uploadResult : Option UploadOutcome
  marked : Bool
deriving DecidableEq, Repr

/-- The per-PDF body of `process_pdfs`, lines 439-493, for one entry:
fetch the text, bail out (`continue`) when it starts with `"Error"`
(line 448), run the extraction, bail out when it yielded nothing
(line 457), clean, upload when something survived, and finally call
`mark_pdf_as_processed` (line 489).  Every failure inside the body is
modelled as a value, mirroring the `try`/`except` that keeps exceptions
from escaping the loop. -/
def processPdfEntry (fetch : Except String String)
    (attempts : Nat → Option (List TxRow))
    (dateParse : String → Option String) (createOk : Nat → Bool) :
    PdfOutcome :=
  let pdf_content := read_pdf fetch
  if pyStartsWith pdf_content "Error" then ⟨none, false⟩
  else
    let extracted_data := analyze_pdf_content attempts 3
    if extracted_data.isEmpty then ⟨none, false⟩
    else
      let cleaned_data := cleanedRows extracted_data
      if !cleaned_data.isEmpty then
        ⟨some (upload_transactions_to_notion dateParse createOk cleaned_data), true⟩
      else ⟨none, true⟩

/-! ## PdfIngestionScanner — `get_pdf_entries` (lines 260-304) -/

/-- One attachment object of the `files` property. -/
structure NotionFile where
  name : String
  url : String
deriving DecidableEq, Repr

/-- One row of the source database, as the query returns it.
`bankStatementFiles` is the `files` list of the
`"upload your bank statement"` property (`none` when the property is
absent); `processedCheckbox` is the `"Processed"` property's checkbox
value (`none` when the property or its checkbox is absent, which
line 279 defaults to `False`); `respondentCreatedByName` is the
`"Respondent"` property's `created_by.name` (`none` when absent or
malformed, which lines 281-285 default to `"Unknown Respondent"`). -/
structure SourcePage where
  id : String
  bankStatementFiles : Option (List NotionFile)
  processedCheckbox : Option Bool
  respondentCreatedByName : Option String
deriving DecidableEq, Repr

/-- One element of the scanner's result (lines 287-292). -/
structure PdfEntry where
  page_id : String
  pdf_file : NotionFile
  pdf_url : String
  respondent_name : String
deriving DecidableEq, Repr

/-- Lines 281-285: the respondent name, defaulting to
`"Unknown Respondent"`. -/
def respondentNameOf (page : SourcePage) : String :=
  page.respondentCreatedByName.getD "Unknown Respondent"

/-- Line 279: `properties.get("Processed", {}).get("checkbox", False)`. -/
def pageProcessed (page : SourcePage) : Bool :=
  page.processedCheckbox.getD false

/-- The contribution of one source page to the scan result: the inner
loop of lines 274-295.  When the `"upload your bank statement"` property
is absent nothing is enumerated; per attachment, the entry is appended
only when the page's `Processed` checkbox is not set. -/
def pagePdfEntries (page : SourcePage) : List PdfEntry :=
  match page.bankStatementFiles with
  | none => []
  | some pdf_files =>
    pdf_files.flatMap (fun pdf_file =>
      if pageProcessed page then []
      else [⟨page.id, pdf_file, pdf_file.url, respondentNameOf page⟩])

/-- `get_pdf_entries(database_id)`, lines 260-304, over the queried rows
(the happy path of the surrounding `try`s). -/
def get_pdf_entries (pages : List SourcePage) : List PdfEntry :=
  pages.flatMap pagePdfEntries

/-! ## RespondentDatabaseResolver — `check_existing_database` /
`create_new_database` (lines 168-258) and the resolution step of
`process_pdfs` (lines 428-434) -/

/-- Line 18 of the source. -/
def TARGET_PAGE_ID : String := " target page ID"

/-- The five required property names of the schema contract. -/
def requiredPropNames : List String :=
  ["Transaction Date", "Product Name", "Price", "Category", "Processed"]

/-- A database object held by the document service. -/
structure NotionDatabase where
  id : String
  parentType : String
  parentPageId : String
  title : String
  propNames : List String
deriving DecidableEq, Repr

/-- The document service's database store, with a counter for fresh ids. -/
structure ServiceState where
  databases : List NotionDatabase
  nextId : Nat
deriving DecidableEq, Repr

/-- The filter of lines 189-196: parent type is `page_id`, parent is the
target page, and the title's text content equals the expected title. -/
def dbMatches (expected_title target_page_id : String)
    (db : NotionDatabase) : Bool :=
  db.parentType = "page_id" && db.parentPageId = target_page_id &&
    db.title = expected_title

/-- `check_existing_database(respondent_name, target_page_id)`, lines
168-202: scan the search results for the first exact match and return its
id.  `notion.search` is modelled as returning the service's database list
(a superset of any real search result; the exact-match filter makes the
extra elements irrelevant). -/
def check_existing_database (respondent_name target_page_id : String)
    (dbs : List NotionDatabase) : Option String :=
  (dbs.find? (dbMatches respondent_name target_page_id)).map (fun db => db.id)

/-- `create_new_database(respondent_name)`, lines 204-258: create a
database parented under `TARGET_PAGE_ID`, titled exactly
`respondent_name`, with the five required schema properties, and return
its id.  The service assigns a fresh id and appends the database. -/
def create_new_database (respondent_name : String) (st : ServiceState) :
    String × ServiceState :=
  let newId := "db-" ++ toString st.nextId
  let db : NotionDatabase :=
    ⟨newId, "page_id", TARGET_PAGE_ID, respondent_name, requiredPropNames⟩
  (newId, ⟨st.databases ++ [db], st.nextId + 1⟩)

/-- The database-resolution step of `process_pdfs`, lines 428-434: check
for an existing database, and create one only when none was found. -/
def resolveRespondentDatabase (respondent : String) (st : ServiceState) :
    String × ServiceState :=
  match check_existing_database respondent TARGET_PAGE_ID st.databases with
  | some id => (id, st)
  | none => create_new_database respondent st

/-! ## Schema healing — `ensure_database_properties` (lines 117-166) -/

/-- The Notion property schemas used by the required properties. -/
inductive PropSchema where
  | date
  | title
  | numberDollar
  | richText
  | checkbox
deriving DecidableEq, Repr

/-- `required_properties` of lines 121-144. -/
def required_properties : List (String × PropSchema) :=
  [("Transaction Date", .date), ("Product Name", .title),
   ("Price", .numberDollar), ("Category", .richText),
   ("Processed", .checkbox)]

/-- `prop_name in existing_properties` (line 152). -/
def hasKey (props : List (String × PropSchema)) (n : String) : Bool :=
  props.any (fun p => p.1 = n)

/-- `properties_to_add` of lines 150-154: exactly the required properties
whose name is not among the existing ones. -/
def properties_to_add (existing : List (String × PropSchema)) :
    List (String × PropSchema) :=
  required_properties.filter (fun p => !hasKey existing p.1)

/-- `ensure_database_properties(database_id)`, lines 117-166: the schema
after the update of lines 156-160.  The service merges the update payload
into the schema, adding the payload's properties and leaving every other
property untouched. -/
def ensure_database_properties (existing : List (String × PropSchema)) :
    List (String × PropSchema) :=
  existing ++ properties_to_add existing

/-! ## Helper lemmas -/

theorem isPrefixOf_append_right (t : List Char) :
    ∀ (p l : List Char), p.isPrefixOf l = true → p.isPrefixOf (l ++ t) = true
  | [], _, _ => by simp
  | a :: as, [], h => by simp [List.isPrefixOf] at h
  | a :: as, b :: bs, h => by
    simp only [List.cons_append, List.isPrefixOf_cons₂, Bool.and_eq_true] at h ⊢
    exact ⟨h.1, isPrefixOf_append_right t as bs h.2⟩

theorem pyStartsWith_append_left (base suffix pre : String)
    (h : pyStartsWith base pre = true) :
    pyStartsWith (base ++ suffix) pre = true := by
  unfold pyStartsWith at h ⊢
  have hd : (base ++ suffix).data = base.data ++ suffix.data := by
    cases base; cases suffix; rfl
  rw [hd]
  exact isPrefixOf_append_right _ _ _ h

theorem read_pdf_error_starts (e : String) :
    pyStartsWith (read_pdf (Except.error e)) "Error" = true :=
  pyStartsWith_append_left "Error reading PDF: " e "Error" (by decide)

theorem attemptList_three (attempts : Nat → Option (List TxRow)) :
    attemptList attempts 3 = [attempts 0, attempts 1, attempts 2] := by
  have h3 : List.range 3 = [0, 1, 2] := by decide
  rw [attemptList, h3]
  rfl

theorem analyze_all_fail (attempts : Nat → Option (List TxRow))
    (h : ∀ i, i < 3 → attempts i = none) :
    analyze_pdf_content attempts 3 = [] ∧ analyzeRequests attempts 3 = 3 := by
  have h0 := h 0 (by omega)
  have h1 := h 1 (by omega)
  have h2 := h 2 (by omega)
  constructor <;>
    simp [analyze_pdf_content, analyzeRequests, attemptList_three, h0, h1, h2,
      firstSuccess]

theorem analyze_first_some (attempts : Nat → Option (List TxRow))
    (rows : List TxRow) (h : attempts 0 = some rows) :
    analyze_pdf_content attempts 3 = rows ∧ analyzeRequests attempts 3 = 1 := by
  constructor <;>
    simp [analyze_pdf_content, analyzeRequests, attemptList_three, h, firstSuccess]

theorem uploadLoop_counts (dateParse : String → Option String)
    (createOk : Nat → Bool) :
    ∀ (data : List TxRow) (i : Nat),
      (uploadLoop dateParse createOk data i).1
          + (uploadLoop dateParse createOk data i).2.1 = data.length
        ∧ (uploadLoop dateParse createOk data i).1
          = (uploadLoop dateParse createOk data i).2.2.length := by
  intro data
  induction data with
  | nil => intro i; simp [uploadLoop]
  | cons row rest ih =>
    intro i
    obtain ⟨ih1, ih2⟩ := ih (i + 1)
    cases hv : validateRow dateParse row with
    | none =>
      simp only [uploadLoop, hv, List.length_cons]
      omega
    | some page =>
      cases hc : createOk i with
      | true =>
        simp [uploadLoop, hv, hc, List.length_cons]
        omega
      | false =>
        simp [uploadLoop, hv, hc, List.length_cons]
        omega

theorem find?_append_eq_right {α : Type} (p : α → Bool) (l₁ l₂ : List α)
    (h : l₁.find? p = none) : (l₁ ++ l₂).find? p = l₂.find? p := by
  induction l₁ with
  | nil => simp
  | cons a t ih =>
    cases ha : p a
    · rw [List.find?_cons_of_neg _ (by simp [ha])] at h
      rw [List.cons_append, List.find?_cons_of_neg _ (by simp [ha])]
      exact ih h
    · rw [List.find?_cons_of_pos _ ha] at h
      exact absurd h (Option.some_ne_none _)

/-! ## Claims -/

/-- Claim C2, counterexample: `upload_transactions_to_notion` does not
return the pair `(uploadedCount, skippedCount)` — at the concrete input
of an empty row list its Python return value is `None`, not
`(uploadedCount, skippedCount) = (0, 0)`. -/
theorem c2_upload_return_counterexample :
    (upload_transactions_to_notion (fun _ => none) (fun _ => true) []).retVal
      ≠ some
        ((upload_transactions_to_notion (fun _ => none) (fun _ => true) []).uploaded_count,
         (upload_transactions_to_notion (fun _ => none) (fun _ => true) []).skipped_count) := by
  decide

/-- Claim C2 (amended): for every list of rows and every destination
database, the uploader computes `uploaded_count` and `skipped_count` and
logs them, but returns `None` to its caller — its body ends with two
`print` calls and no `return` statement. -/
theorem c2_upload_returns_none (dateParse : String → Option String)
    (createOk : Nat → Bool) (data : List TxRow) :
    (upload_transactions_to_notion dateParse createOk data).retVal = none :=
  rfl

/-- Claim C3: the extractor issues at most 3 completion requests; an
attempt that raises (network, parse, header mismatch) is followed by the
next attempt, and a later successful attempt's data is returned; after
all 3 attempts fail it returns the empty list (line 115) — a value, not
a propagated error. -/
theorem c3_extractor_retry_bound (attempts : Nat → Option (List TxRow)) :
    analyzeRequests attempts 3 ≤ 3
      ∧ ((∀ i, i < 3 → attempts i = none) →
          analyze_pdf_content attempts 3 = [] ∧ analyzeRequests attempts 3 = 3)
      ∧ (∀ k data, k < 3 → (∀ i, i < k → attempts i = none) →
          attempts k = some data →
          analyze_pdf_content attempts 3 = data
            ∧ analyzeRequests attempts 3 = k + 1) := by
  refine ⟨?_, analyze_all_fail attempts, ?_⟩
  · rcases h0 : attempts 0 with _ | d0 <;> rcases h1 : attempts 1 with _ | d1 <;>
      rcases h2 : attempts 2 with _ | d2 <;>
      simp [analyzeRequests, attemptList_three, h0, h1, h2, firstSuccess]
  · intro k data hk hprev hsome
    interval_cases k
    · exact analyze_first_some attempts data hsome
    · have h0 := hprev 0 (by omega)
      constructor <;>
        simp [analyze_pdf_content, analyzeRequests, attemptList_three, h0, hsome,
          firstSuccess]
    · have h0 := hprev 0 (by omega)
      have h1 := hprev 1 (by omega)
      constructor <;>
        simp [analyze_pdf_content, analyzeRequests, attemptList_three, h0, h1,
          hsome, firstSuccess]

/-- Claim C3 witness: with every attempt failing, the extractor issues
3 requests and returns the empty list. -/
theorem c3_extractor_retry_bound_witness :
    analyzeRequests (fun _ => none) 3 ≤ 3
      ∧ analyze_pdf_content (fun _ => none) 3 = [] :=
  ⟨(c3_extractor_retry_bound (fun _ => none)).1,
    ((c3_extractor_retry_bound (fun _ => none)).2.1 (fun _ _ => rfl)).1⟩

/-- Claim C4: the uploader never raises to its caller — every row either
increments `uploaded_count` (and contributes exactly one created page) or
increments `skipped_count`, and the two counters always sum to the number
of rows passed in. -/
theorem c4_upload_partial_failure (dateParse : String → Option String)
    (createOk : Nat → Bool) (data : List TxRow) :
    (upload_transactions_to_notion dateParse createOk data).uploaded_count
        + (upload_transactions_to_notion dateParse createOk data).skipped_count
        = data.length
      ∧ (upload_transactions_to_notion dateParse createOk data).uploaded_count
        = (upload_transactions_to_notion dateParse createOk data).created.length := by
  have h := uploadLoop_counts dateParse createOk data 0
  exact ⟨h.1, h.2⟩

/-- Claim C1, counterexample: a PDF whose fetch succeeds (text
`"BANK STATEMENT 2022"`) and whose three completion attempts all fail —
so extraction yields zero transactions — is NOT marked processed: the
`continue` of line 459 skips `mark_pdf_as_processed` (line 489), contrary
to the claim that the Processed flag is still set. -/
theorem c1_exhausted_extraction_counterexample :
    pyStartsWith "BANK STATEMENT 2022" "Error" = false
      ∧ analyze_pdf_content (fun _ => none) 3 = []
      ∧ (processPdfEntry (Except.ok "BANK STATEMENT 2022") (fun _ => none)
          (fun _ => none) (fun _ => true)).marked = false := by
  refine ⟨by decide, ?_, by decide⟩
  exact (analyze_all_fail (fun _ => none) (fun _ _ => rfl)).1

/-- Claim C1 (amended): for every PDF whose text fetch succeeds (with
text not itself starting with `"Error"`) and whose transaction extraction
exhausts all completion attempts and yields zero transactions, the
pipeline does NOT set the source record's Processed flag — the entry is
skipped by the `continue` of line 459, leaving it eligible for a future
retry — and no exception escapes the pipeline (the outcome is the plain
value `⟨none, false⟩`). -/
theorem c1_exhausted_extraction_skips_mark (text : String)
    (attempts : Nat → Option (List TxRow))
    (dateParse : String → Option String) (createOk : Nat → Bool)
    (hok : pyStartsWith text "Error" = false)
    (hfail : ∀ i, i < 3 → attempts i = none) :
    processPdfEntry (Except.ok text) attempts dateParse createOk
      = ⟨none, false⟩ := by
  have hana := (analyze_all_fail attempts hfail).1
  rw [processPdfEntry]
  simp [read_pdf, hok, hana]

/-- Claim C1 witness: the amended claim at the concrete exhausted run. -/
theorem c1_exhausted_extraction_skips_mark_witness :
    pyStartsWith "BANK STATEMENT 2022" "Error" = false
      ∧ processPdfEntry (Except.ok "BANK STATEMENT 2022") (fun _ => none)
          (fun _ => none) (fun _ => true) = ⟨none, false⟩ :=
  ⟨by decide,
    c1_exhausted_extraction_skips_mark "BANK STATEMENT 2022" (fun _ => none)
      (fun _ => none) (fun _ => true) (by decide) (fun _ _ => rfl)⟩

/-- Claim C5: a PDF whose fetch raises (network/HTTP failure or
unparseable bytes) is abandoned at line 448-450: no upload call is made
for it and `mark_pdf_as_processed` is not invoked, whatever the later
oracles would have done. -/
theorem c5_fetch_failure_aborts_pdf (e : String)
    (attempts : Nat → Option (List TxRow))
    (dateParse : String → Option String) (createOk : Nat → Bool) :
    processPdfEntry (Except.error e) attempts dateParse createOk
      = ⟨none, false⟩ := by
  rw [processPdfEntry]
  simp [read_pdf_error_starts e]

theorem mem_pagePdfEntries (page : SourcePage) (e : PdfEntry)
    (hm : e ∈ pagePdfEntries page) :
    e.page_id = page.id
      ∧ (page.processedCheckbox = none ∨ page.processedCheckbox = some false) := by
  rcases hf : page.bankStatementFiles with _ | files
  · simp [pagePdfEntries, hf] at hm
  · simp only [pagePdfEntries, hf, List.mem_flatMap] at hm
    obtain ⟨f, hfm, hif⟩ := hm
    by_cases hpp : pageProcessed page = true
    · rw [if_pos hpp] at hif
      simp at hif
    · rw [if_neg hpp] at hif
      simp only [List.mem_singleton] at hif
      refine ⟨by rw [hif], ?_⟩
      simp only [pageProcessed] at hpp
      rcases hc : page.processedCheckbox with _ | b
      · exact Or.inl rfl
      · cases b with
        | false => exact Or.inr rfl
        | true => rw [hc] at hpp; simp at hpp

/-- Claim C6: the scanner includes no attachment of a source record whose
`Processed` checkbox is `true`; every entry it returns originates from a
record whose `Processed` checkbox is `false` or absent. -/
theorem c6_scanner_skips_processed :
    (∀ page : SourcePage, page.processedCheckbox = some true →
        pagePdfEntries page = [])
      ∧ (∀ (pages : List SourcePage) (e : PdfEntry),
          e ∈ get_pdf_entries pages →
          ∃ page, page ∈ pages ∧ e ∈ pagePdfEntries page
            ∧ e.page_id = page.id
            ∧ (page.processedCheckbox = none
                ∨ page.processedCheckbox = some false)) := by
  constructor
  · intro page h
    rcases hf : page.bankStatementFiles with _ | files
    · simp [pagePdfEntries, hf]
    · simp [pagePdfEntries, hf, pageProcessed, h]
  · intro pages e he
    rw [get_pdf_entries, List.mem_flatMap] at he
    obtain ⟨page, hp, hm⟩ := he
    obtain ⟨h1, h2⟩ := mem_pagePdfEntries page e hm
    exact ⟨page, hp, hm, h1, h2⟩

/-- Claim C6 witness: a concrete unprocessed record's attachment is
traced back to its record. -/
theorem c6_scanner_skips_processed_witness :
    pagePdfEntries ⟨"p2", some [⟨"b.pdf", "urlB"⟩], some true, none⟩ = []
      ∧ ∃ page,
          page ∈ [(⟨"p1", some [⟨"a.pdf", "urlA"⟩], some false,
            some "Jane Doe"⟩ : SourcePage)]
          ∧ (⟨"p1", ⟨"a.pdf", "urlA"⟩, "urlA", "Jane Doe"⟩ : PdfEntry)
              ∈ pagePdfEntries page
          ∧ (⟨"p1", ⟨"a.pdf", "urlA"⟩, "urlA", "Jane Doe"⟩ : PdfEntry).page_id
              = page.id
          ∧ (page.processedCheckbox = none
              ∨ page.processedCheckbox = some false) :=
  ⟨c6_scanner_skips_processed.1 ⟨"p2", some [⟨"b.pdf", "urlB"⟩], some true, none⟩
      rfl,
    c6_scanner_skips_processed.2
      [⟨"p1", some [⟨"a.pdf", "urlA"⟩], some false, some "Jane Doe"⟩]
      ⟨"p1", ⟨"a.pdf", "urlA"⟩, "urlA", "Jane Doe"⟩ (by decide)⟩

/-- Claim C7: resolving the same respondent name twice within one run
returns the same database id both times and the second resolution changes
nothing (no duplicate database); when an exact-title match exists its id
is returned and nothing is created; when none exists, exactly one
database is appended, parented under the target page, titled exactly with
the respondent name and carrying the required schema, and its id is the
one returned. -/
theorem c7_resolution_idempotent (name : String) (st : ServiceState) :
    (resolveRespondentDatabase name (resolveRespondentDatabase name st).2).1
        = (resolveRespondentDatabase name st).1
      ∧ (resolveRespondentDatabase name (resolveRespondentDatabase name st).2).2
        = (resolveRespondentDatabase name st).2
      ∧ (∀ i, check_existing_database name TARGET_PAGE_ID st.databases = some i →
          resolveRespondentDatabase name st = (i, st))
      ∧ (check_existing_database name TARGET_PAGE_ID st.databases = none →
          (resolveRespondentDatabase name st).2.databases
            = st.databases
              ++ [⟨(resolveRespondentDatabase name st).1, "page_id",
                  TARGET_PAGE_ID, name, requiredPropNames⟩]) := by
  rcases hc : check_existing_database name TARGET_PAGE_ID st.databases with _ | i
  · -- no existing database: one is created, and the second resolution finds it
    have hres : resolveRespondentDatabase name st
        = ("db-" ++ toString st.nextId,
           ⟨st.databases
              ++ [⟨"db-" ++ toString st.nextId, "page_id", TARGET_PAGE_ID, name,
                  requiredPropNames⟩],
            st.nextId + 1⟩) := by
      rw [resolveRespondentDatabase, hc]
      rfl
    have hnone : st.databases.find? (dbMatches name TARGET_PAGE_ID) = none := by
      rw [check_existing_database] at hc
      exact Option.map_eq_none'.mp hc
    have hfind :
        (st.databases
            ++ [(⟨"db-" ++ toString st.nextId, "page_id", TARGET_PAGE_ID, name,
                requiredPropNames⟩ : NotionDatabase)]).find?
            (dbMatches name TARGET_PAGE_ID)
          = some ⟨"db-" ++ toString st.nextId, "page_id", TARGET_PAGE_ID, name,
              requiredPropNames⟩ := by
      rw [find?_append_eq_right _ _ _ hnone]
      exact List.find?_cons_of_pos _ (by simp [dbMatches])
    have hcheck2 :
        check_existing_database name TARGET_PAGE_ID
            (st.databases
              ++ [(⟨"db-" ++ toString st.nextId, "page_id", TARGET_PAGE_ID, name,
                  requiredPropNames⟩ : NotionDatabase)])
          = some ("db-" ++ toString st.nextId) := by
      rw [check_existing_database, hfind]
      rfl
    have hres2 :
        resolveRespondentDatabase name (resolveRespondentDatabase name st).2
          = ("db-" ++ toString st.nextId, (resolveRespondentDatabase name st).2) := by
      rw [hres]
      rw [resolveRespondentDatabase, hcheck2]
    refine ⟨?_, ?_, ?_, ?_⟩
    · rw [hres2, hres]
    · rw [hres2]
    · intro i hi
      cases hi
    · intro _
      rw [hres]
  · -- an exact match exists: it is returned and the state is untouched
    have hres : resolveRespondentDatabase name st = (i, st) := by
      rw [resolveRespondentDatabase, hc]
    have hsnd : (resolveRespondentDatabase name st).2 = st := by rw [hres]
    refine ⟨?_, ?_, ?_, ?_⟩
    · rw [hsnd]
    · rw [hsnd]
      exact hsnd
    · intro j hj
      cases hj
      exact hres
    · intro h
      cases h

/-- Claim C7 witness: resolving `"Jane Doe"` from an empty service state
creates exactly one database with the required schema, and resolving it
again returns the same id without another creation. -/
theorem c7_resolution_idempotent_witness :
    (resolveRespondentDatabase "Jane Doe"
        (resolveRespondentDatabase "Jane Doe" ⟨[], 0⟩).2).1
        = (resolveRespondentDatabase "Jane Doe" (⟨[], 0⟩ : ServiceState)).1
      ∧ (resolveRespondentDatabase "Jane Doe" (⟨[], 0⟩ : ServiceState)).2.databases
        = ([] : List NotionDatabase)
          ++ [⟨(resolveRespondentDatabase "Jane Doe" (⟨[], 0⟩ : ServiceState)).1,
              "page_id", TARGET_PAGE_ID, "Jane Doe", requiredPropNames⟩] :=
  ⟨(c7_resolution_idempotent "Jane Doe" ⟨[], 0⟩).1,
    (c7_resolution_idempotent "Jane Doe" ⟨[], 0⟩).2.2.2 (by decide)⟩

/-- Claim C8, counterexample: the code does not parse Price "after
stripping thousands separators and a leading currency symbol" — it
removes every `$` anywhere.  On the concrete Price string `"1234.50$"`
(trailing dollar sign) the code's coercion yields `1234.50`, while the
parse the claim describes leaves the trailing `$` in place and fails. -/
theorem c8_price_sanitization_counterexample :
    parsePrice? "1234.50$" = some ((2469 : ℚ) / 2)
      ∧ specParsePrice? "1234.50$" = none := by
  constructor
  · have h : parseDecimal? (sanitizePrice "1234.50$")
        = some ⟨false, 1234, 50, 2, false, 0⟩ := by decide
    rw [parsePrice?, parseFloat?, h, Option.map_some']
    norm_num [floatVal]
  · have h : parseDecimal? (specSanitizePrice "1234.50$") = none := by decide
    rw [specParsePrice?, parseFloat?, h]
    rfl

/-- Claim C8 (amended): the Price string is parsed as a decimal number
after removing every comma and every dollar sign anywhere in the string
(not only thousands separators and a leading currency symbol); the
claim's examples hold: a row with Price `"$1,234.50"` is uploaded with
the number `1234.50`, and a row with Price `"abc"` is skipped and never
written. -/
theorem c8_price_sanitization_amended :
    (∀ s, parsePrice? s = parseFloat? (removeChar '$' (removeChar ',' s)))
      ∧ upload_transactions_to_notion
          (fun s => if s = "2022-09-08" then some "2022-09-08" else none)
          (fun _ => true)
          [⟨"2022-09-08", "Coffee", "$1,234.50", "Groceries"⟩,
           ⟨"2022-09-08", "Chips", "abc", "Snacks"⟩]
        = ⟨1, 1, [⟨"2022-09-08", "Coffee", (2469 : ℚ) / 2, "Groceries"⟩],
            none⟩ := by
  constructor
  · intro s
    rfl
  · have hlit : parseDecimal? (sanitizePrice (pyStrip "$1,234.50"))
        = some ⟨false, 1234, 50, 2, false, 0⟩ := by decide
    have hval : floatVal ⟨false, 1234, 50, 2, false, 0⟩ = (2469 : ℚ) / 2 := by
      norm_num [floatVal]
    have hp : parsePrice? (pyStrip "$1,234.50") = some ((2469 : ℚ) / 2) := by
      rw [parsePrice?, parseFloat?, hlit, Option.map_some', hval]
    have hp2 : parsePrice? (pyStrip "abc") = none := by
      have h2 : parseDecimal? (sanitizePrice (pyStrip "abc")) = none := by decide
      rw [parsePrice?, parseFloat?, h2]
      rfl
    have hc : pyStrip "Coffee" = "Coffee" := by decide
    have hs1 : pyStrip "$1,234.50" ≠ "" := by decide
    have hg : pyStrip "Groceries" = "Groceries" := by decide
    have hch : pyStrip "Chips" ≠ "" := by decide
    have hab : pyStrip "abc" ≠ "" := by decide
    have hsn : pyStrip "Snacks" ≠ "" := by decide
    simp [upload_transactions_to_notion, uploadLoop, validateRow, hp, hp2, hc,
      hs1, hg, hch, hab, hsn]

theorem lookup_append_of_hasKey (l₁ l₂ : List (String × PropSchema))
    (n : String) (h : hasKey l₁ n = true) :
    List.lookup n (l₁ ++ l₂) = List.lookup n l₁ := by
  induction l₁ with
  | nil => simp [hasKey] at h
  | cons kv t ih =>
    obtain ⟨k, v⟩ := kv
    cases hk : (n == k)
    · have ht : hasKey t n = true := by
        simp only [hasKey, List.any_cons, Bool.or_eq_true] at h
        rcases h with h | h
        · exfalso
          have : n = k := by
            have hkn : k = n := by simpa using h
            exact hkn.symm
          rw [this] at hk
          simp at hk
        · exact h
      rw [List.cons_append, List.lookup_cons, List.lookup_cons, hk]
      exact ih ht
    · rw [List.cons_append, List.lookup_cons, List.lookup_cons, hk]

/-- Claim C9: schema healing is additive-only — the update payload
consists of exactly the required properties missing from the existing
schema (each missing required property is in it, and nothing that is
already present is), the healed schema is the existing schema extended by
that payload, and every property already present keeps the schema it
had. -/
theorem c9_schema_healing_additive (existing : List (String × PropSchema)) :
    (∀ p ∈ properties_to_add existing,
        p ∈ required_properties ∧ hasKey existing p.1 = false)
      ∧ (∀ p ∈ required_properties, hasKey existing p.1 = false →
          p ∈ properties_to_add existing)
      ∧ ensure_database_properties existing
        = existing ++ properties_to_add existing
      ∧ (∀ n, hasKey existing n = true →
          List.lookup n (ensure_database_properties existing)
            = List.lookup n existing) := by
  refine ⟨?_, ?_, rfl, ?_⟩
  · intro p hp
    rw [properties_to_add, List.mem_filter] at hp
    exact ⟨hp.1, by simpa using hp.2⟩
  · intro p hp h
    rw [properties_to_add, List.mem_filter]
    exact ⟨hp, by simp [h]⟩
  · intro n h
    rw [ensure_database_properties]
    exact lookup_append_of_hasKey existing _ n h

/-- Claim C9 witness: with only `Price` present, `Transaction Date` is in
the update payload, and the `Price` property's schema survives healing
untouched. -/
theorem c9_schema_healing_additive_witness :
    ("Transaction Date", PropSchema.date)
        ∈ properties_to_add [("Price", PropSchema.numberDollar)]
      ∧ List.lookup "Price"
          (ensure_database_properties [("Price", PropSchema.numberDollar)])
        = List.lookup "Price" [("Price", PropSchema.numberDollar)] :=
  ⟨(c9_schema_healing_additive [("Price", PropSchema.numberDollar)]).2.1
      ("Transaction Date", PropSchema.date) (by decide) (by decide),
    (c9_schema_healing_additive [("Price", PropSchema.numberDollar)]).2.2.2
      "Price" (by decide)⟩

/-- Claim C10: `read_pdf` is total — on a successful fetch it returns the
extracted text unchanged, and on any fetch or parse failure it returns a
string prefixed by `"Error reading PDF:"` instead of raising; the
orchestrator (line 448) classifies a PDF as failed exactly when the
returned text starts with `"Error"`, so a successfully fetched PDF whose
own text begins with `"Error"` is skipped and never marked processed,
while a text not beginning with `"Error"` proceeds into extraction and
upload. -/
theorem c10_read_pdf_error_string_classification :
    (∀ t, read_pdf (Except.ok t) = t)
      ∧ (∀ e, read_pdf (Except.error e) = "Error reading PDF: " ++ e
          ∧ pyStartsWith (read_pdf (Except.error e)) "Error reading PDF:"
            = true)
      ∧ (∀ (t : String) attempts dateParse createOk,
          pyStartsWith t "Error" = true →
          processPdfEntry (Except.ok t) attempts dateParse createOk
            = ⟨none, false⟩)
      ∧ (∀ (t : String) attempts dateParse createOk rows,
          pyStartsWith t "Error" = false → attempts 0 = some rows →
          cleanedRows rows ≠ [] →
          processPdfEntry (Except.ok t) attempts dateParse createOk
            = ⟨some (upload_transactions_to_notion dateParse createOk
                (cleanedRows rows)), true⟩) := by
  refine ⟨fun t => rfl,
    fun e => ⟨rfl,
      pyStartsWith_append_left "Error reading PDF: " e "Error reading PDF:"
        (by decide)⟩,
    ?_, ?_⟩
  · intro t attempts dateParse createOk h
    rw [processPdfEntry]
    simp [read_pdf, h]
  · intro t attempts dateParse createOk rows hok h0 hcl
    have hana := (analyze_first_some attempts rows h0).1
    have hne : rows ≠ [] := by
      intro hr
      rw [hr] at hcl
      exact hcl rfl
    rw [processPdfEntry]
    simp [read_pdf, hok, hana, hne, hcl]

/-- Claim C10 witness: a successfully fetched PDF whose own text is
`"Error: see branch statement"` is skipped and not marked processed, and
a fetch failure's message carries the `"Error reading PDF:"` prefix. -/
theorem c10_read_pdf_error_string_classification_witness :
    pyStartsWith "Error: see branch statement" "Error" = true
      ∧ processPdfEntry (Except.ok "Error: see branch statement")
          (fun _ => some [⟨"2022-09-08", "Coffee", "3.50", "Groceries"⟩])
          (fun _ => none) (fun _ => true) = ⟨none, false⟩ :=
  ⟨by decide,
    c10_read_pdf_error_string_classification.2.2.1
      "Error: see branch statement"
      (fun _ => some [⟨"2022-09-08", "Coffee", "3.50", "Groceries"⟩])
      (fun _ => none) (fun _ => true) (by decide)⟩
